import Mathlib

/-!
Verification of the PulseSpark memory-items API (`backend/memory_api.py`).

The Python module is shallowly embedded: each endpoint handler becomes a pure
Lean function over an explicit `Store` value that models the Supabase
collaborator (the `memory_items` table plus the embeddings edge function, the
`search_memories` RPC and the full-text matcher, all of which are external
services invoked by contract).  Fallible collaborator calls are modelled with
`Except Unit`; an exception raised by the Python client corresponds to
`.error ()`.  Python floats appear only as opaque payloads (embedding
coordinates, similarity scores, thresholds); no arithmetic is ever performed
on them by the module, so they are represented by `Int` values.
-/

namespace MemoryApi

/-! ### Python string primitives

`str.strip` and `str.lower` as used by the tag validators and text validator.
`Char.toLower` matches Python's lowercasing on ASCII; characters outside the
ASCII uppercase range are passed through unchanged.  Whitespace is modelled by
`Char.isWhitespace` (space, tab, carriage return, newline). -/

/-- Strip leading and trailing whitespace from a character list (Python `str.strip`). -/
def stripChars (l : List Char) : List Char :=
  ((l.dropWhile Char.isWhitespace).reverse.dropWhile Char.isWhitespace).reverse

/-- Python `str.strip` on a `String`. -/
def pyStrip (s : String) : String := ⟨stripChars s.data⟩

/-- Python `str.lower` on a `String` (ASCII lowering, as performed by `Char.toLower`). -/
def pyLower (s : String) : String := ⟨s.data.map Char.toLower⟩

/-- Hexadecimal digit test, used by the UUID syntax check. -/
def isHexDigit (c : Char) : Bool :=
  c.isDigit || (decide ('a' ≤ c) && decide (c ≤ 'f')) || (decide ('A' ≤ c) && decide (c ≤ 'F'))

/-- Syntactic UUID validity, modelling the `uuid.UUID(value)` parse check in its
canonical hyphenated 8-4-4-4-12 form. -/
def isValidUUID (s : String) : Bool :=
  let cs := s.data
  cs.length == 36 &&
    (List.range 36).all (fun i =>
      if i == 8 || i == 13 || i == 18 || i == 23 then cs.getD i ' ' == '-'
      else isHexDigit (cs.getD i ' '))

/-- Tag normalization shared by `CreateMemoryRequest.validate_tags` and
`UpdateMemoryRequest.validate_tags`:
`cleaned_tags = [tag.strip().lower() for tag in v if tag.strip()]` followed by
`list(set(cleaned_tags))`.  The Python `set` round-trip is modelled by the
canonical duplicate-free list `List.dedup`. -/
def normalizeTags (v : List String) : List String :=
  ((v.filter (fun t => pyStrip t ≠ "")).map (fun t => pyLower (pyStrip t))).dedup

/-! ### Character-level lemmas -/

theorem char_toNat_ofNat_of_le {n : Nat} (h1 : 97 ≤ n) (h2 : n ≤ 122) :
    (Char.ofNat n).toNat = n := by
  have hv : n.isValidChar := Or.inl (by omega)
  rw [Char.ofNat, dif_pos hv]
  simp [Char.ofNatAux, Char.toNat, UInt32.toNat]

theorem isWhitespace_eq_false_of_ge {c : Char} (h : 65 ≤ c.toNat) :
    c.isWhitespace = false := by
  have h1 : c ≠ ' ' := by rintro rfl; exact absurd h (by decide)
  have h2 : c ≠ '\t' := by rintro rfl; exact absurd h (by decide)
  have h3 : c ≠ '\r' := by rintro rfl; exact absurd h (by decide)
  have h4 : c ≠ '\n' := by rintro rfl; exact absurd h (by decide)
  simp [Char.isWhitespace, h1, h2, h3, h4]

theorem isWhitespace_toLower (c : Char) :
    (Char.toLower c).isWhitespace = c.isWhitespace := by
  unfold Char.toLower
  by_cases h : c.toNat ≥ 65 ∧ c.toNat ≤ 90
  · rw [if_pos h]
    have ht : (Char.ofNat (c.toNat + 32)).toNat = c.toNat + 32 :=
      char_toNat_ofNat_of_le (by omega) (by omega)
    rw [isWhitespace_eq_false_of_ge (by omega),
        isWhitespace_eq_false_of_ge (c := c) (by omega)]
  · rw [if_neg h]

theorem toLower_toLower (c : Char) :
    Char.toLower (Char.toLower c) = Char.toLower c := by
  by_cases h : c.toNat ≥ 65 ∧ c.toNat ≤ 90
  · have hinner : Char.toLower c = Char.ofNat (c.toNat + 32) := by
      unfold Char.toLower; rw [if_pos h]
    have ht : (Char.ofNat (c.toNat + 32)).toNat = c.toNat + 32 :=
      char_toNat_ofNat_of_le (by omega) (by omega)
    rw [hinner]
    unfold Char.toLower
    rw [if_neg (by omega)]
  · have hinner : Char.toLower c = c := by
      unfold Char.toLower; rw [if_neg h]
    rw [hinner, hinner]

/-! ### Strip/lower interaction lemmas -/

theorem dropWhile_dropWhile {α : Type} (p : α → Bool) (l : List α) :
    (l.dropWhile p).dropWhile p = l.dropWhile p := by
  induction l with
  | nil => rfl
  | cons a l ih =>
    by_cases h : p a
    · simp [List.dropWhile_cons, h, ih]
    · simp [List.dropWhile_cons, h]

theorem head?_dropWhile_false {α : Type} (p : α → Bool) (l : List α) {a : α}
    (h : (l.dropWhile p).head? = some a) : p a = false := by
  induction l with
  | nil => simp at h
  | cons b l ih =>
    by_cases hb : p b
    · rw [List.dropWhile_cons_of_pos hb] at h; exact ih h
    · rw [List.dropWhile_cons_of_neg hb] at h
      simp at h
      subst h
      simpa using hb

theorem dropWhile_eq_self_of_head {α : Type} (p : α → Bool) (l : List α)
    (h : ∀ a, l.head? = some a → p a = false) : l.dropWhile p = l := by
  cases l with
  | nil => rfl
  | cons a l => exact List.dropWhile_cons_of_neg (by simp [h a rfl])

theorem stripChars_prefix (l : List Char) :
    ∃ t, l.dropWhile Char.isWhitespace = stripChars l ++ t := by
  unfold stripChars
  have hs : ((l.dropWhile Char.isWhitespace).reverse.dropWhile Char.isWhitespace) <:+
      (l.dropWhile Char.isWhitespace).reverse := List.dropWhile_suffix _
  obtain ⟨u, hu⟩ := hs
  refine ⟨u.reverse, ?_⟩
  have := congrArg List.reverse hu
  simpa [List.reverse_append] using this.symm

theorem stripChars_head {l : List Char} {a : Char}
    (h : (stripChars l).head? = some a) : a.isWhitespace = false := by
  obtain ⟨t, ht⟩ := stripChars_prefix l
  have hne : stripChars l ≠ [] := by
    intro he; rw [he] at h; simp at h
  have : (l.dropWhile Char.isWhitespace).head? = some a := by
    rw [ht]
    cases hsl : stripChars l with
    | nil => exact absurd hsl hne
    | cons b u => rw [hsl] at h; simp at h; subst h; simp
  exact head?_dropWhile_false _ _ this

theorem stripChars_last {l : List Char} {a : Char}
    (h : (stripChars l).reverse.head? = some a) : a.isWhitespace = false := by
  unfold stripChars at h
  rw [List.reverse_reverse] at h
  exact head?_dropWhile_false _ _ h

theorem stripChars_stripChars (l : List Char) :
    stripChars (stripChars l) = stripChars l := by
  have h1 : (stripChars l).dropWhile Char.isWhitespace = stripChars l :=
    dropWhile_eq_self_of_head _ _ (fun a ha => stripChars_head ha)
  have h2 : (stripChars l).reverse.dropWhile Char.isWhitespace = (stripChars l).reverse :=
    dropWhile_eq_self_of_head _ _ (fun a ha => stripChars_last ha)
  show ((((stripChars l).dropWhile Char.isWhitespace).reverse.dropWhile
      Char.isWhitespace)).reverse = stripChars l
  rw [h1, h2, List.reverse_reverse]

theorem stripChars_map_toLower (l : List Char) :
    stripChars (l.map Char.toLower) = (stripChars l).map Char.toLower := by
  have hw : (Char.isWhitespace ∘ Char.toLower) = Char.isWhitespace := by
    funext c; exact isWhitespace_toLower c
  unfold stripChars
  rw [List.dropWhile_map, hw, ← List.map_reverse, List.dropWhile_map, hw, List.map_reverse]

theorem pyStrip_pyStrip (s : String) : pyStrip (pyStrip s) = pyStrip s := by
  show (⟨stripChars (stripChars s.data)⟩ : String) = ⟨stripChars s.data⟩
  rw [stripChars_stripChars]

theorem pyStrip_pyLower_pyStrip (s : String) :
    pyStrip (pyLower (pyStrip s)) = pyLower (pyStrip s) := by
  show (⟨stripChars ((stripChars s.data).map Char.toLower)⟩ : String) =
    ⟨(stripChars s.data).map Char.toLower⟩
  rw [stripChars_map_toLower, stripChars_stripChars]

theorem pyLower_pyLower (s : String) : pyLower (pyLower s) = pyLower s := by
  show (⟨(s.data.map Char.toLower).map Char.toLower⟩ : String) = ⟨s.data.map Char.toLower⟩
  rw [List.map_map]
  congr 1
  exact List.map_congr_left (fun c _ => toLower_toLower c)

theorem pyLower_pyStrip_ne_empty {s : String} (h : pyStrip s ≠ "") :
    pyLower (pyStrip s) ≠ "" := by
  intro he
  apply h
  have hdata : ((pyStrip s).data.map Char.toLower) = [] := congrArg String.data he
  have : (pyStrip s).data = [] := by
    cases hd : (pyStrip s).data with
    | nil => rfl
    | cons a l => rw [hd] at hdata; simp at hdata
  show (⟨stripChars s.data⟩ : String) = ""
  have h2 : stripChars s.data = [] := this
  rw [h2]

/-! ### Properties of `normalizeTags` -/

theorem mem_normalizeTags {v : List String} {y : String} (h : y ∈ normalizeTags v) :
    pyStrip y = y ∧ pyLower y = y ∧ y ≠ "" := by
  unfold normalizeTags at h
  rw [List.mem_dedup] at h
  obtain ⟨t, ht, rfl⟩ := List.mem_map.mp h
  have hP : pyStrip t ≠ "" := by
    have := List.of_mem_filter ht
    simpa using this
  refine ⟨pyStrip_pyLower_pyStrip t, ?_, pyLower_pyStrip_ne_empty hP⟩
  show pyLower (pyLower (pyStrip t)) = pyLower (pyStrip t)
  exact pyLower_pyLower _

theorem normalizeTags_nodup (v : List String) : (normalizeTags v).Nodup :=
  List.nodup_dedup _

theorem normalizeTags_idem (v : List String) :
    normalizeTags (normalizeTags v) = normalizeTags v := by
  unfold normalizeTags
  have hfilter : ((normalizeTags v).filter (fun t => pyStrip t ≠ "")) = normalizeTags v := by
    apply List.filter_eq_self.mpr
    intro a ha
    have := mem_normalizeTags ha
    simp only [decide_eq_true_eq]
    rw [this.1]
    exact this.2.2
  have hmap : ((normalizeTags v).map (fun t => pyLower (pyStrip t))) = normalizeTags v := by
    have hfix : ∀ a ∈ normalizeTags v, pyLower (pyStrip a) = a := by
      intro a ha
      have h := mem_normalizeTags ha
      rw [h.1, h.2.1]
    calc ((normalizeTags v).map (fun t => pyLower (pyStrip t)))
        = (normalizeTags v).map id := List.map_congr_left (fun a ha => hfix a ha)
      _ = normalizeTags v := List.map_id _
  show ((((normalizeTags v).filter (fun t => pyStrip t ≠ "")).map
      (fun t => pyLower (pyStrip t))).dedup) = normalizeTags v
  rw [hfilter, hmap, List.dedup_eq_self.mpr (normalizeTags_nodup v)]

/-! ### Data model

Mirrors the Pydantic models of `memory_api.py`.  The flexible metadata object
keeps the five documented keys; `none` at the `MemoryItem.metadata` level
models the raw empty JSON object `{}` that the handlers write when the request
metadata is the Python value `None` (which is falsy). -/

/-- Enumeration `MemoryItemType` of supported memory item types. -/
inductive MemoryItemType
  | chat
  | code
  | note
  | document
  | project
deriving DecidableEq, Repr

/-- Structured metadata record `MemoryMetadata` with its field defaults
(`type = NOTE`, `importance = 1`). -/
structure MemoryMetadata where
  source : Option String := none
  type : Option MemoryItemType := some .note
  importance : Option Int := some 1
  language : Option String := none
  framework : Option String := none
deriving DecidableEq, Repr

/-- A stored row of the `memory_items` table. -/
structure MemoryItem where
  id : String
  user_id : String
  project_id : Option String := none
  text : String := ""
  embedding : List Int := []
  metadata : Option MemoryMetadata := none
  tags : List String := []
  created_at : Nat := 0
  updated_at : Nat := 0
deriving DecidableEq, Repr

/-- Response model `MemoryItemResponse`; `similarity` is populated only on the
vector/hybrid search path. -/
structure MemoryItemResponse where
  id : String
  user_id : String
  project_id : Option String
  text : String
  metadata : Option MemoryMetadata
  tags : List String
  similarity : Option Int := none
  created_at : Nat
  updated_at : Nat
deriving DecidableEq, Repr

/-- Response envelope `MemorySearchResponse` for the list/search endpoint. -/
structure MemorySearchResponse where
  items : List MemoryItemResponse
  total_count : Nat
  page : Nat
  page_size : Nat
  has_next : Bool
deriving DecidableEq, Repr

/-- Body of the bulk-delete success response. -/
structure BulkDeleteResponse where
  message : String
  deleted_count : Nat
  requested_count : Nat
deriving DecidableEq, Repr

/-- An `HTTPException` raised by a handler: status code and detail string. -/
structure HTTPError where
  status_code : Nat
  detail : String
deriving DecidableEq, Repr

/-- A row returned by the `search_memories` RPC: the item fields together with
its optional `similarity` score. -/
structure SimRow where
  item : MemoryItem
  similarity : Option Int := none
deriving DecidableEq, Repr

/-! ### The collaborator model

The Supabase client is a process-wide singleton in the source; here it is an
explicit value.  `ownerOf` models
`table("memory_items").select("user_id").eq("id", x).single().execute()` —
`.error ()` is a raised client exception, `.ok none` an empty result.
`embedFn` models `functions.invoke("embeddings", ...)` — `.ok none` is a
response whose `"data"` key is missing/falsy, `.ok (some v)` a usable query
embedding.  `simFn` models the `search_memories` RPC with arguments
(query_embedding, match_threshold, match_count, filter_user_id,
filter_project_id).  `textMatch` models the `textSearch("text", q)` lexical
filter applied by the record store. -/
structure Store where
  items : List MemoryItem
  ownerOf : String → Except Unit (Option String)
  embedFn : String → Except Unit (Option (List Int))
  simFn : List Int → Int → Nat → String → Option String → Except Unit (List SimRow)
  textMatch : String → MemoryItem → Bool
  freshId : String := "generated-id"
  now : Nat := 0

/-- The tracked store operations issued by the update handler. -/
inductive StoreOp
  | ownerLookup (memory_id : String)
  | updateRow (memory_id : String)
deriving DecidableEq, Repr

/-- Conversion of a stored row into a `MemoryItemResponse` as done field by
field inside each handler; the handlers map a falsy stored metadata (`{}`) to
`{}` again (`item["metadata"] or {}`), which is the identity here. -/
def toResponse (it : MemoryItem) (sim : Option Int) : MemoryItemResponse :=
  { id := it.id
    user_id := it.user_id
    project_id := it.project_id
    text := it.text
    metadata := it.metadata
    tags := it.tags
    similarity := sim
    created_at := it.created_at
    updated_at := it.updated_at }

/-- Ownership verifier `verify_memory_ownership(memory_id, user_id)`: a raised
lookup exception is caught and logged, returning `False`; an empty lookup
returns `False`; otherwise the stored owner is compared with the claimed
owner. -/
def verify_memory_ownership (store : Store) (memory_id : String) (user_id : String) : Bool :=
  match store.ownerOf memory_id with
  | .error _ => false
  | .ok none => false
  | .ok (some owner) => owner == user_id

/-- Primary-key lookup on the modelled table
(`select("*").eq("id", memory_id).single()`). -/
def getById (items : List MemoryItem) (memory_id : String) : Option MemoryItem :=
  items.find? (fun it => it.id == memory_id)

/-! ### List/search endpoint -/

/-- Truthiness of the optional `project_id` query parameter: Python applies the
`eq("project_id", ...)` filter only under `if project_id:`, so `None` and the
empty string both skip the filter. -/
def projectFilterActive : Option String → Bool
  | none => false
  | some p => p ≠ ""

/-- Stable insertion of an item into a most-recent-first list. -/
def insertByCreatedDesc (x : MemoryItem) : List MemoryItem → List MemoryItem
  | [] => [x]
  | y :: ys => if x.created_at ≤ y.created_at then y :: insertByCreatedDesc x ys
               else x :: y :: ys

/-- Most-recent-first ordering, modelling `order("created_at", desc=True)`. -/
def orderByCreatedDesc : List MemoryItem → List MemoryItem
  | [] => []
  | x :: xs => insertByCreatedDesc x (orderByCreatedDesc xs)

/-- The plain filtered scan: owner filter, optional project filter, optional
lexical text filter, `count="exact"` row count, most-recent-first ordering and
the window `range(offset, offset + page_size - 1)`. -/
def runScan (store : Store) (user_id : String) (project_id : Option String)
    (textQ : Option String) (offset limit : Nat) : List MemoryItem × Nat :=
  let base := store.items.filter (fun it =>
    (it.user_id == user_id)
    && (if projectFilterActive project_id then it.project_id == project_id else true)
    && (match textQ with | none => true | some q => store.textMatch q it))
  (((orderByCreatedDesc base).drop offset).take limit, base.length)

/-- Assembly of the scan results into the response envelope, with
`has_next = total_count > offset + page_size`. -/
def scanResponse (store : Store) (user_id : String) (project_id : Option String)
    (textQ : Option String) (page page_size : Nat) : MemorySearchResponse :=
  let offset := (page - 1) * page_size
  let scanned := runScan store user_id project_id textQ offset page_size
  { items := scanned.1.map (fun it => toResponse it none)
    total_count := scanned.2
    page := page
    page_size := page_size
    has_next := scanned.2 > offset + page_size }

/-- The tail of the search algorithm reached after the vector stage (either
skipped, fallen through, or downgraded): `search_type` values `text` and
`hybrid` apply the lexical filter, any other residual value scans without
it. -/
def textPathResponse (store : Store) (user_id : String) (project_id : Option String)
    (search_type : String) (sq : String) (page page_size : Nat) : MemorySearchResponse :=
  if search_type == "text" || search_type == "hybrid" then
    scanResponse store user_id project_id (some sq) page page_size
  else
    scanResponse store user_id project_id none page page_size

/-- Handler `get_memory_items` after FastAPI parameter validation.  The
vector/hybrid stage calls the embedding function; a raised call downgrades
`search_type` to `"text"` locally, a falsy embedding payload or a falsy
similarity result set falls through with `search_type` unchanged, and a
non-empty similarity result set is returned directly, sliced to
`[offset, offset + page_size)` with `total_count` the size of the full result
set. -/
def get_memory_items (store : Store) (current_user : String) (user_id : String)
    (project_id : Option String) (search : Option String) (page page_size : Nat)
    (search_type : String) (similarity_threshold : Int) :
    Except HTTPError MemorySearchResponse :=
  if current_user ≠ user_id then
    .error ⟨403, "Access denied: can only access your own memories"⟩
  else
    let offset := (page - 1) * page_size
    match search with
    | none => .ok (scanResponse store user_id project_id none page page_size)
    | some s =>
      if pyStrip s = "" then .ok (scanResponse store user_id project_id none page page_size)
      else
        let sq := pyStrip s
        if search_type == "vector" || search_type == "hybrid" then
          match store.embedFn sq with
          | .error _ => .ok (textPathResponse store user_id project_id "text" sq page page_size)
          | .ok none =>
              .ok (textPathResponse store user_id project_id search_type sq page page_size)
          | .ok (some emb) =>
            match store.simFn emb similarity_threshold page_size user_id project_id with
            | .error _ => .ok (textPathResponse store user_id project_id "text" sq page page_size)
            | .ok [] =>
                .ok (textPathResponse store user_id project_id search_type sq page page_size)
            | .ok data =>
              .ok { items := ((data.drop offset).take page_size).map
                      (fun r => toResponse r.item r.similarity)
                    total_count := data.length
                    page := page
                    page_size := page_size
                    has_next := data.length > offset + page_size }
        else .ok (textPathResponse store user_id project_id search_type sq page page_size)

/-- The list/search endpoint including the FastAPI `Query` validation layer
(`page ≥ 1`, `1 ≤ page_size ≤ 100`, `search_type` within the mode regex). -/
def get_memory_items_endpoint (store : Store) (current_user : String) (user_id : String)
    (project_id : Option String) (search : Option String) (page page_size : Int)
    (search_type : String) (similarity_threshold : Int) :
    Except HTTPError MemorySearchResponse :=
  if page < 1 then .error ⟨422, "page: ensure this value is greater than or equal to 1"⟩
  else if page_size < 1 then
    .error ⟨422, "page_size: ensure this value is greater than or equal to 1"⟩
  else if page_size > 100 then
    .error ⟨422, "page_size: ensure this value is less than or equal to 100"⟩
  else if ¬ (search_type = "vector" ∨ search_type = "text" ∨ search_type = "hybrid") then
    .error ⟨422, "search_type: string does not match regex"⟩
  else
    get_memory_items store current_user user_id project_id search
      page.toNat page_size.toNat search_type similarity_threshold

/-! ### Create endpoint -/

/-- Raw create payload before Pydantic validation.  `metadata` distinguishes an
omitted key (outer `none`, which triggers `default_factory=MemoryMetadata`)
from an explicit JSON `null` (`some none`, which Pydantic keeps as `None`).
An omitted or `null` tags array both become `[]` in the validator. -/
structure CreateMemoryInput where
  user_id : String
  project_id : Option String := none
  text : String
  embedding : List Int := []
  metadata : Option (Option MemoryMetadata) := none
  tags : Option (List String) := none
deriving DecidableEq, Repr

/-- Validated `CreateMemoryRequest`. -/
structure CreateMemoryRequest where
  user_id : String
  project_id : Option String
  text : String
  embedding : List Int
  metadata : Option MemoryMetadata
  tags : List String
deriving DecidableEq, Repr

/-- Pydantic validation of `CreateMemoryRequest`: UUID checks on `user_id` and
`project_id`, text length bounds 1–10000 then the strip-and-reject-empty
validator, exact 1536-item bound on the embedding, the 20-item ceiling on tags
followed by tag normalization, and the metadata default. -/
def parseCreateMemoryRequest (inp : CreateMemoryInput) : Except String CreateMemoryRequest :=
  if ¬ isValidUUID inp.user_id then .error "Invalid UUID format"
  else if ! (match inp.project_id with | none => true | some p => isValidUUID p) then
    .error "Invalid UUID format"
  else if inp.text.length < 1 then .error "ensure this value has at least 1 characters"
  else if inp.text.length > 10000 then .error "ensure this value has at most 10000 characters"
  else if pyStrip inp.text = "" then .error "Text content cannot be empty"
  else if inp.embedding.length < 1536 then .error "ensure this value has at least 1536 items"
  else if inp.embedding.length > 1536 then .error "ensure this value has at most 1536 items"
  else if (inp.tags.getD []).length > 20 then .error "ensure this value has at most 20 items"
  else .ok
    { user_id := inp.user_id
      project_id := inp.project_id
      text := pyStrip inp.text
      embedding := inp.embedding
      metadata := match inp.metadata with
        | none => some {}
        | some m => m
      tags := normalizeTags (inp.tags.getD []) }

/-- Handler `create_memory_item`: owner/caller equality gate, then the insert
of the prepared row (`metadata.dict() if metadata else {}` keeps `none` as the
empty object).  Returns the response together with the table contents after
the call. -/
def create_memory_item (store : Store) (current_user : String) (req : CreateMemoryRequest) :
    (Except HTTPError MemoryItemResponse) × List MemoryItem :=
  if current_user ≠ req.user_id then
    (.error ⟨403, "Access denied: can only create memories for yourself"⟩, store.items)
  else
    let created : MemoryItem :=
      { id := store.freshId
        user_id := req.user_id
        project_id := req.project_id
        text := req.text
        embedding := req.embedding
        metadata := req.metadata
        tags := req.tags
        created_at := store.now
        updated_at := store.now }
    (.ok (toResponse created none), store.items ++ [created])

/-! ### Read-by-id endpoint -/

/-- Handler `get_memory_item`: UUID syntax gate, then primary-key lookup
(absent → 404), then the ownership comparison (mismatch → 403). -/
def get_memory_item (store : Store) (current_user : String) (memory_id : String) :
    Except HTTPError MemoryItemResponse :=
  if ¬ isValidUUID memory_id then .error ⟨400, "Invalid memory ID format"⟩
  else
    match getById store.items memory_id with
    | none => .error ⟨404, "Memory item not found"⟩
    | some it =>
      if it.user_id ≠ current_user then
        .error ⟨403, "Access denied: memory item belongs to another user"⟩
      else .ok (toResponse it none)

/-! ### Update endpoint -/

/-- Raw update payload; the validated request has the same shape, with tags
normalized when supplied. -/
structure UpdateMemoryInput where
  text : Option String := none
  embedding : Option (List Int) := none
  metadata : Option MemoryMetadata := none
  tags : Option (List String) := none
deriving DecidableEq, Repr

/-- Pydantic validation of `UpdateMemoryRequest`: optional text bounded
1–10000, optional embedding of exactly 1536 items, the 20-item tag ceiling and
tag normalization (a `None` tags value stays `None`). -/
def parseUpdateMemoryRequest (inp : UpdateMemoryInput) : Except String UpdateMemoryInput :=
  if ! (match inp.text with | none => true | some t => 1 ≤ t.length && t.length ≤ 10000) then
    .error "text length out of bounds"
  else if ! (match inp.embedding with | none => true | some e => e.length == 1536) then
    .error "embedding must have exactly 1536 items"
  else if ! (match inp.tags with | none => true | some v => v.length ≤ 20) then
    .error "ensure this value has at most 20 items"
  else .ok { inp with tags := inp.tags.map normalizeTags }

/-- Effect of the store-side `update(update_fields)` call on the targeted row,
per the record-store contract (`update(id, partialFields) -> item | absent`):
exactly the transmitted fields change and `updated_at` advances. -/
def applyUpdateFields (it : MemoryItem) (u : UpdateMemoryInput) (now : Nat) : MemoryItem :=
  { it with
    text := u.text.getD it.text
    embedding := u.embedding.getD it.embedding
    metadata := match u.metadata with | none => it.metadata | some m => some m
    tags := u.tags.getD it.tags
    updated_at := now }

/-- Truth of `not update_fields`: the update dict is empty exactly when none of
the four optional fields was supplied. -/
def emptyFieldSet (u : UpdateMemoryInput) : Bool :=
  u.text.isNone && u.embedding.isNone && u.metadata.isNone && u.tags.isNone

/-- Handler `update_memory_item`: UUID syntax gate, ownership verification
(one `ownerLookup` store call), the empty-field-set validation check, then the
store update call.  Returns the response, the table contents after the call,
and the trace of store calls issued. -/
def update_memory_item (store : Store) (current_user : String) (memory_id : String)
    (u : UpdateMemoryInput) :
    (Except HTTPError MemoryItemResponse) × List MemoryItem × List StoreOp :=
  if ¬ isValidUUID memory_id then
    (.error ⟨400, "Invalid memory ID format"⟩, store.items, [])
  else if ¬ verify_memory_ownership store memory_id current_user then
    (.error ⟨403, "Access denied: memory item not found or access denied"⟩, store.items,
      [.ownerLookup memory_id])
  else if emptyFieldSet u then
    (.error ⟨400, "No valid fields provided for update"⟩, store.items,
      [.ownerLookup memory_id])
  else
    match getById store.items memory_id with
    | none =>
      (.error ⟨404, "Memory item not found"⟩, store.items,
        [.ownerLookup memory_id, .updateRow memory_id])
    | some it =>
      (.ok (toResponse (applyUpdateFields it u store.now) none),
        store.items.map (fun x => if x.id == memory_id then applyUpdateFields x u store.now else x),
        [.ownerLookup memory_id, .updateRow memory_id])

/-! ### Bulk delete endpoint -/

/-- Handler `bulk_delete_memories`: empty-batch and 100-item validation, UUID
syntax check over every id, the concurrent ownership fan-out joined in list
order (the first failed or raised check aborts with a 403 naming that id),
then one batch delete whose reported `deleted_count` is the number of rows the
store actually removed.  Returns the response and the table contents after the
call. -/
def bulk_delete_memories (store : Store) (current_user : String) (memory_ids : List String) :
    (Except HTTPError BulkDeleteResponse) × List MemoryItem :=
  if memory_ids.isEmpty then (.error ⟨400, "No memory IDs provided"⟩, store.items)
  else if memory_ids.length > 100 then
    (.error ⟨400, "Cannot delete more than 100 items at once"⟩, store.items)
  else
    match memory_ids.find? (fun i => ! isValidUUID i) with
    | some bad => (.error ⟨400, "Invalid memory ID format: " ++ bad⟩, store.items)
    | none =>
      match memory_ids.find? (fun i => ! verify_memory_ownership store i current_user) with
      | some offending =>
        (.error ⟨403, "Access denied for memory item: " ++ offending⟩, store.items)
      | none =>
        let deleted := store.items.filter (fun it => memory_ids.contains it.id)
        (.ok { message := "Successfully deleted " ++ toString deleted.length ++ " memory items"
               deleted_count := deleted.length
               requested_count := memory_ids.length },
         store.items.filter (fun it => ! memory_ids.contains it.id))

/-- Decidable equality for collaborator/handler results, used to evaluate the
embedding on concrete inputs. -/
instance exceptDecEq {ε α : Type} [DecidableEq ε] [DecidableEq α] :
    DecidableEq (Except ε α) := fun a b =>
  match a, b with
  | .error e, .error f =>
    if h : e = f then .isTrue (by rw [h])
    else .isFalse (fun hh => by injection hh; exact h (by assumption))
  | .error _, .ok _ => .isFalse (fun hh => Except.noConfusion hh)
  | .ok _, .error _ => .isFalse (fun hh => Except.noConfusion hh)
  | .ok x, .ok y =>
    if h : x = y then .isTrue (by rw [h])
    else .isFalse (fun hh => by injection hh; exact h (by assumption))

/-! ### Concrete fixtures used by witnesses and counterexamples -/

/-- A syntactically valid identifier owned by user `u1` in the fixtures. -/
def uuidA : String := "00000000-0000-0000-0000-00000000000a"

/-- A syntactically valid identifier owned by user `u2` in the fixtures. -/
def uuidB : String := "00000000-0000-0000-0000-00000000000b"

/-- A syntactically valid identifier whose owner lookup answers `u1` but which
is absent from the fixture table (models a lookup/table race). -/
def uuidC : String := "00000000-0000-0000-0000-00000000000c"

/-- Fixture row owned by `u1`. -/
def itemA : MemoryItem := { id := uuidA, user_id := "u1", text := "hello", created_at := 5 }

/-- Fixture row owned by `u2`. -/
def itemB : MemoryItem := { id := uuidB, user_id := "u2", text := "other", created_at := 7 }

/-- Fixture owner-lookup collaborator: `uuidA`, `uuidC` belong to `u1`, `uuidB`
to `u2`, the id `"boom"` raises, anything else is an empty lookup. -/
def ownerTable : String → Except Unit (Option String) := fun i =>
  if i == uuidA then .ok (some "u1")
  else if i == uuidB then .ok (some "u2")
  else if i == uuidC then .ok (some "u1")
  else if i == "boom" then .error ()
  else .ok none

/-- Fixture store whose embedding service raises. -/
def storeEmbedFail : Store :=
  { items := [itemA, itemB]
    ownerOf := ownerTable
    embedFn := fun _ => .error ()
    simFn := fun _ _ _ _ _ => .ok []
    textMatch := fun q it => it.text == q }

/-- Fixture store whose embedding service succeeds but whose similarity
operation raises. -/
def storeSimFail : Store :=
  { items := [itemA, itemB]
    ownerOf := ownerTable
    embedFn := fun _ => .ok (some [5])
    simFn := fun _ _ _ _ _ => .error ()
    textMatch := fun q it => it.text == q }

/-- Fixture store whose similarity operation succeeds with an empty result
set. -/
def storeSimEmpty : Store :=
  { items := [itemA, itemB]
    ownerOf := ownerTable
    embedFn := fun _ => .ok (some [5])
    simFn := fun _ _ _ _ _ => .ok []
    textMatch := fun _ _ => true }

/-- Fixture store whose similarity operation succeeds with two scored rows. -/
def storeSimTwo : Store :=
  { items := [itemA, itemB]
    ownerOf := ownerTable
    embedFn := fun _ => .ok (some [5])
    simFn := fun _ _ _ _ _ => .ok [{ item := itemA, similarity := some 9 },
                                   { item := itemB, similarity := some 8 }]
    textMatch := fun _ _ => true }

/-- A well-formed create payload omitting `metadata`. -/
def createInpGood : CreateMemoryInput :=
  { user_id := uuidA
    text := "hooks demo"
    embedding := List.replicate 1536 0
    tags := some ["React", " Hooks "] }

/-- The validated request obtained from `createInpGood`. -/
def createReqGood : CreateMemoryRequest :=
  { user_id := uuidA
    project_id := none
    text := "hooks demo"
    embedding := List.replicate 1536 0
    metadata := some {}
    tags := ["react", "hooks"] }

/-- A well-formed update payload supplying only tags. -/
def updateInpGood : UpdateMemoryInput := { tags := some ["React", " Hooks "] }

/-- The response produced by the fixture plain-scan request (`user u1`, no
search, first page of size 20). -/
def scanRespFixture : MemorySearchResponse :=
  { items := [toResponse itemA none]
    total_count := 1
    page := 1
    page_size := 20
    has_next := false }

/-! ## Claim theorems -/

/-- Claim C6: for every supplied tag list on create and on update,
normalization drops empty and whitespace-only entries, trims and lowercases
each remaining tag, and removes duplicates; normalization is idempotent with
every output element lowercase, trimmed and unique; and a tag list exceeding
20 members is a validation failure on both paths, never silent truncation. -/
theorem normalizeTags_spec :
    (∀ v : List String, normalizeTags (normalizeTags v) = normalizeTags v) ∧
    (∀ v : List String, (normalizeTags v).Nodup ∧
      ∀ y ∈ normalizeTags v, pyLower y = y ∧ pyStrip y = y ∧ y ≠ "") ∧
    (∀ (inp : CreateMemoryInput) (v : List String),
      inp.tags = some v → 20 < v.length →
      ∃ e, parseCreateMemoryRequest inp = .error e) ∧
    (∀ (inp : UpdateMemoryInput) (v : List String),
      inp.tags = some v → 20 < v.length →
      ∃ e, parseUpdateMemoryRequest inp = .error e) ∧
    (∀ (cinp : CreateMemoryInput) (uinp : UpdateMemoryInput) (v : List String)
      (creq : CreateMemoryRequest) (ureq : UpdateMemoryInput),
      cinp.tags = some v → uinp.tags = some v →
      parseCreateMemoryRequest cinp = .ok creq →
      parseUpdateMemoryRequest uinp = .ok ureq →
      creq.tags = normalizeTags v ∧ ureq.tags = some (normalizeTags v)) := by
  refine ⟨normalizeTags_idem, ?_, ?_, ?_, ?_⟩
  · intro v
    refine ⟨normalizeTags_nodup v, ?_⟩
    intro y hy
    have h := mem_normalizeTags hy
    exact ⟨h.2.1, h.1, h.2.2⟩
  · intro inp v htags hlen
    unfold parseCreateMemoryRequest
    rw [htags]
    simp only [Option.getD_some]
    repeat' split
    all_goals exact ⟨_, rfl⟩
  · intro inp v htags hlen
    unfold parseUpdateMemoryRequest
    rw [htags]
    simp only [Bool.not_eq_true']
    repeat' split
    all_goals try exact ⟨_, rfl⟩
    all_goals simp_all
  · intro cinp uinp v creq ureq hct hut hc hu
    constructor
    · unfold parseCreateMemoryRequest at hc
      repeat' split at hc
      all_goals cases hc
      all_goals simp [hct]
    · unfold parseUpdateMemoryRequest at hu
      repeat' split at hu
      all_goals cases hu
      all_goals simp [hut]

set_option maxRecDepth 8192 in
/-- Witness for C6 at concrete inputs: the idempotence instance, the
21-member rejection on create and on update, and the identical normalization
of `["React", " Hooks "]` on both paths. -/
theorem normalizeTags_spec_witness :
    (normalizeTags (normalizeTags ["React", " Hooks ", "react", "", "  "]) =
      normalizeTags ["React", " Hooks ", "react", "", "  "]) ∧
    (∃ e, parseCreateMemoryRequest
      { createInpGood with tags := some (List.replicate 21 "t") } = .error e) ∧
    (∃ e, parseUpdateMemoryRequest { tags := some (List.replicate 21 "t") } = .error e) ∧
    (createReqGood.tags = normalizeTags ["React", " Hooks "] ∧
      ({ tags := some ["react", "hooks"] } : UpdateMemoryInput).tags =
        some (normalizeTags ["React", " Hooks "])) :=
  ⟨normalizeTags_spec.1 _,
   normalizeTags_spec.2.2.1 _ (List.replicate 21 "t") rfl (by decide),
   normalizeTags_spec.2.2.2.1 _ (List.replicate 21 "t") rfl (by decide),
   normalizeTags_spec.2.2.2.2 createInpGood updateInpGood ["React", " Hooks "]
     createReqGood { tags := some ["react", "hooks"] } rfl rfl rfl rfl⟩

/-- Claim C7: the ownership verifier answers `true` exactly when the item
exists and its stored owner equals the claimed owner, and answers `false`
indistinguishably when the item is absent, when it belongs to someone else,
and when the lookup itself errors. -/
theorem verify_memory_ownership_spec (store : Store) (memory_id claimed : String) :
    (verify_memory_ownership store memory_id claimed = true ↔
      store.ownerOf memory_id = .ok (some claimed)) ∧
    (store.ownerOf memory_id = .ok none →
      verify_memory_ownership store memory_id claimed = false) ∧
    (∀ owner, store.ownerOf memory_id = .ok (some owner) → owner ≠ claimed →
      verify_memory_ownership store memory_id claimed = false) ∧
    (∀ e, store.ownerOf memory_id = .error e →
      verify_memory_ownership store memory_id claimed = false) := by
  refine ⟨⟨?_, ?_⟩, ?_, ?_, ?_⟩
  · intro h
    unfold verify_memory_ownership at h
    cases ho : store.ownerOf memory_id with
    | error e => rw [ho] at h; simp at h
    | ok o =>
      cases o with
      | none => rw [ho] at h; simp at h
      | some owner =>
        rw [ho] at h
        simp only [beq_iff_eq] at h
        rw [h]
  · intro h
    unfold verify_memory_ownership
    rw [h]
    simp
  · intro h
    unfold verify_memory_ownership
    rw [h]
  · intro owner h hne
    unfold verify_memory_ownership
    rw [h]
    simp [hne]
  · intro e h
    unfold verify_memory_ownership
    rw [h]

/-- Witness for C7 against the fixture owner table: owned id accepted for its
owner, rejected for someone else; absent id rejected; erroring lookup
rejected. -/
theorem verify_memory_ownership_spec_witness :
    verify_memory_ownership storeSimEmpty uuidA "u1" = true ∧
    verify_memory_ownership storeSimEmpty uuidA "u2" = false ∧
    verify_memory_ownership storeSimEmpty "other" "u1" = false ∧
    verify_memory_ownership storeSimEmpty "boom" "u1" = false :=
  ⟨(verify_memory_ownership_spec storeSimEmpty uuidA "u1").1.mpr rfl,
   (verify_memory_ownership_spec storeSimEmpty uuidA "u2").2.2.1 "u1" rfl (by decide),
   (verify_memory_ownership_spec storeSimEmpty "other" "u1").2.1 rfl,
   (verify_memory_ownership_spec storeSimEmpty "boom" "u1").2.2.2 () rfl⟩

/-- Claim C8: on read-by-id a syntactically invalid id fails validation with a
400 before any store access (the outcome is the same for every store), a valid
id with no matching record yields 404, and a valid id whose record belongs to
a different owner yields 403 — the two cases are distinguishable here. -/
theorem get_memory_item_spec (current_user memory_id : String) :
    (isValidUUID memory_id = false →
      ∀ store : Store, get_memory_item store current_user memory_id =
        .error ⟨400, "Invalid memory ID format"⟩) ∧
    (∀ store : Store, isValidUUID memory_id = true →
      getById store.items memory_id = none →
      get_memory_item store current_user memory_id =
        .error ⟨404, "Memory item not found"⟩) ∧
    (∀ (store : Store) (it : MemoryItem), isValidUUID memory_id = true →
      getById store.items memory_id = some it → it.user_id ≠ current_user →
      get_memory_item store current_user memory_id =
        .error ⟨403, "Access denied: memory item belongs to another user"⟩) := by
  refine ⟨?_, ?_, ?_⟩
  · intro hbad store
    unfold get_memory_item
    rw [if_pos (by simp [hbad])]
  · intro store hok hnone
    unfold get_memory_item
    rw [if_neg (by simp [hok]), hnone]
  · intro store it hok hsome hne
    unfold get_memory_item
    rw [if_neg (by simp [hok]), hsome]
    simp [hne]

/-- Witness for C8 against the fixture table: malformed id → 400, absent valid
id → 404, other user's id → 403. -/
theorem get_memory_item_spec_witness :
    get_memory_item storeSimEmpty "u1" "nope" = .error ⟨400, "Invalid memory ID format"⟩ ∧
    get_memory_item storeSimEmpty "u1" uuidC = .error ⟨404, "Memory item not found"⟩ ∧
    get_memory_item storeSimEmpty "u1" uuidB =
      .error ⟨403, "Access denied: memory item belongs to another user"⟩ :=
  ⟨(get_memory_item_spec "u1" "nope").1 (by decide) storeSimEmpty,
   (get_memory_item_spec "u1" uuidC).2.1 storeSimEmpty (by decide) (by decide),
   (get_memory_item_spec "u1" uuidB).2.2 storeSimEmpty itemB (by decide) (by decide) (by decide)⟩

/-- Claim C1: a bulk-delete batch that passed the shape and syntax checks is
rejected as a whole with a 403 naming the first offending id (in list order)
whenever any member fails its ownership check, and the table is left
untouched; when every member passes, a single batch delete runs, the response
reports the actual deleted count alongside the requested count, and a
shortfall is still a success response. -/
theorem bulk_delete_admission_policy (store : Store) (current_user : String)
    (ids : List String) (hne : ids ≠ []) (hlen : ids.length ≤ 100)
    (huuid : ∀ i ∈ ids, isValidUUID i = true) :
    (∀ (pre : List String) (bad : String) (post : List String),
      ids = pre ++ bad :: post →
      (∀ i ∈ pre, verify_memory_ownership store i current_user = true) →
      verify_memory_ownership store bad current_user = false →
      bulk_delete_memories store current_user ids =
        (.error ⟨403, "Access denied for memory item: " ++ bad⟩, store.items)) ∧
    ((∀ i ∈ ids, verify_memory_ownership store i current_user = true) →
      bulk_delete_memories store current_user ids =
        (.ok { message := "Successfully deleted " ++
                 toString (store.items.filter (fun it => ids.contains it.id)).length ++
                 " memory items"
               deleted_count := (store.items.filter (fun it => ids.contains it.id)).length
               requested_count := ids.length },
         store.items.filter (fun it => ! ids.contains it.id))) := by
  have hempty : ¬ (ids.isEmpty = true) := by
    cases ids with
    | nil => exact absurd rfl hne
    | cons a l => simp
  have hfind1 : ids.find? (fun i => ! isValidUUID i) = none :=
    List.find?_eq_none.mpr (fun x hx => by simp [huuid x hx])
  constructor
  · intro pre bad post hsplit hpre hbad
    have hfind2 : ids.find? (fun i => ! verify_memory_ownership store i current_user)
        = some bad := by
      rw [hsplit, List.find?_append]
      have h1 : pre.find? (fun i => ! verify_memory_ownership store i current_user) = none :=
        List.find?_eq_none.mpr (fun x hx => by simp [hpre x hx])
      rw [h1, Option.none_or, List.find?_cons_of_pos _ (by simp [hbad])]
    unfold bulk_delete_memories
    rw [if_neg hempty, if_neg (by omega), hfind1, hfind2]
  · intro hall
    have hfind2 : ids.find? (fun i => ! verify_memory_ownership store i current_user)
        = none :=
      List.find?_eq_none.mpr (fun x hx => by simp [hall x hx])
    unfold bulk_delete_memories
    rw [if_neg hempty, if_neg (by omega), hfind1, hfind2]

/-- Witness for C1 against the fixture table: the batch `[uuidA, uuidB]` from
caller `u1` is rejected naming `uuidB` (owned by `u2`) with the table
untouched, and the batch `[uuidA, uuidC]` passes every check but removes only
one row, reported as a success with `deleted_count = 1` of
`requested_count = 2`. -/
theorem bulk_delete_admission_policy_witness :
    (bulk_delete_memories storeSimEmpty "u1" [uuidA, uuidB] =
      (.error ⟨403, "Access denied for memory item: " ++ uuidB⟩, [itemA, itemB])) ∧
    (bulk_delete_memories storeSimEmpty "u1" [uuidA, uuidC] =
      (.ok { message := "Successfully deleted 1 memory items"
             deleted_count := 1
             requested_count := 2 }, [itemB])) :=
  ⟨(bulk_delete_admission_policy storeSimEmpty "u1" [uuidA, uuidB] (by decide) (by decide)
      (by decide)).1 [uuidA] uuidB [] rfl (by decide) (by decide),
   (bulk_delete_admission_policy storeSimEmpty "u1" [uuidA, uuidC] (by decide) (by decide)
      (by decide)).2 (by decide)⟩

/-- Claim C4 (amended): for every update request whose supplied field set is
empty and whose ownership verification passes, the operation fails as a
validation error (400) with the table unchanged and no store update call
issued — only the ownership-check read precedes the failure; for every update
request with a non-empty field set that passes ownership verification and
reaches a stored row, exactly the supplied fields change, fields not supplied
are left untouched, and `updated_at` advances. -/
theorem update_memory_item_spec (store : Store) (current_user memory_id : String)
    (hvalid : isValidUUID memory_id = true)
    (hown : verify_memory_ownership store memory_id current_user = true) :
    (update_memory_item store current_user memory_id {} =
      (.error ⟨400, "No valid fields provided for update"⟩, store.items,
        [.ownerLookup memory_id])) ∧
    (∀ (u : UpdateMemoryInput) (it : MemoryItem), emptyFieldSet u = false →
      getById store.items memory_id = some it →
      update_memory_item store current_user memory_id u =
        (.ok (toResponse (applyUpdateFields it u store.now) none),
         store.items.map
           (fun x => if x.id == memory_id then applyUpdateFields x u store.now else x),
         [.ownerLookup memory_id, .updateRow memory_id]) ∧
      (applyUpdateFields it u store.now).id = it.id ∧
      (applyUpdateFields it u store.now).user_id = it.user_id ∧
      (applyUpdateFields it u store.now).project_id = it.project_id ∧
      (applyUpdateFields it u store.now).created_at = it.created_at ∧
      (applyUpdateFields it u store.now).updated_at = store.now ∧
      (u.text = none → (applyUpdateFields it u store.now).text = it.text) ∧
      (∀ t, u.text = some t → (applyUpdateFields it u store.now).text = t) ∧
      (u.embedding = none → (applyUpdateFields it u store.now).embedding = it.embedding) ∧
      (∀ e, u.embedding = some e → (applyUpdateFields it u store.now).embedding = e) ∧
      (u.metadata = none → (applyUpdateFields it u store.now).metadata = it.metadata) ∧
      (∀ m, u.metadata = some m → (applyUpdateFields it u store.now).metadata = some m) ∧
      (u.tags = none → (applyUpdateFields it u store.now).tags = it.tags) ∧
      (∀ ts, u.tags = some ts → (applyUpdateFields it u store.now).tags = ts)) := by
  constructor
  · unfold update_memory_item
    rw [if_neg (by simp [hvalid]), if_neg (by simp [hown]), if_pos (by rfl)]
  · intro u it hu hget
    refine ⟨?_, rfl, rfl, rfl, rfl, rfl, ?_, ?_, ?_, ?_, ?_, ?_, ?_, ?_⟩
    · unfold update_memory_item
      rw [if_neg (by simp [hvalid]), if_neg (by simp [hown]), if_neg (by simp [hu]), hget]
    · intro h; simp [applyUpdateFields, h]
    · intro t h; simp [applyUpdateFields, h]
    · intro h; simp [applyUpdateFields, h]
    · intro e h; simp [applyUpdateFields, h]
    · intro h; simp [applyUpdateFields, h]
    · intro m h; simp [applyUpdateFields, h]
    · intro h; simp [applyUpdateFields, h]
    · intro ts h; simp [applyUpdateFields, h]

/-- Counterexample to C4 as stated: the update of `uuidB` (owned by `u2`) by
caller `u1` with the empty field set `{}` fails with a 403 forbidden — not a
validation error — and an ownership-lookup store call was issued before the
failure. -/
theorem update_memory_item_counterexample :
    (update_memory_item storeSimEmpty "u1" uuidB {}).1 =
      .error ⟨403, "Access denied: memory item not found or access denied"⟩ ∧
    (update_memory_item storeSimEmpty "u1" uuidB {}).1 ≠
      .error ⟨400, "No valid fields provided for update"⟩ ∧
    (update_memory_item storeSimEmpty "u1" uuidB {}).2.2 = [.ownerLookup uuidB] :=
  ⟨rfl, by decide, rfl⟩

/-- Witness for C4 (amended) against the fixture table: the empty update of
`uuidA` by its owner fails with the 400 validation error after only the
ownership read, and a text-only update changes the text and `updated_at` while
leaving every other field untouched. -/
theorem update_memory_item_spec_witness :
    (update_memory_item storeSimEmpty "u1" uuidA {} =
      (.error ⟨400, "No valid fields provided for update"⟩, [itemA, itemB],
        [.ownerLookup uuidA])) ∧
    (update_memory_item storeSimEmpty "u1" uuidA { text := some "new" } =
      (.ok (toResponse (applyUpdateFields itemA { text := some "new" } 0) none),
       [applyUpdateFields itemA { text := some "new" } 0, itemB],
       [.ownerLookup uuidA, .updateRow uuidA]) ∧
     (applyUpdateFields itemA { text := some "new" } 0).tags = itemA.tags) :=
  ⟨(update_memory_item_spec storeSimEmpty "u1" uuidA (by decide) (by decide)).1,
   (fun h => ⟨h.1, h.2.2.2.2.2.2.2.2.2.2.2.2.1 rfl⟩)
     ((update_memory_item_spec storeSimEmpty "u1" uuidA (by decide) (by decide)).2
       { text := some "new" } itemA (by decide) (by decide))⟩

/-- Claim C9: create rejects a mismatched owner with a 403; rejects
empty-after-trim text and any embedding whose length is not exactly 1536 as
validation failures; defaults absent metadata to the structured record with
`type = note` and `importance = 1`; and on success returns the full stored
record with no similarity value present. -/
theorem create_memory_item_spec (store : Store) (current_user : String) :
    (∀ req : CreateMemoryRequest, current_user ≠ req.user_id →
      create_memory_item store current_user req =
        (.error ⟨403, "Access denied: can only create memories for yourself"⟩,
         store.items)) ∧
    (∀ inp : CreateMemoryInput, pyStrip inp.text = "" →
      ∃ e, parseCreateMemoryRequest inp = .error e) ∧
    (∀ inp : CreateMemoryInput, inp.embedding.length ≠ 1536 →
      ∃ e, parseCreateMemoryRequest inp = .error e) ∧
    (∀ (inp : CreateMemoryInput) (req : CreateMemoryRequest),
      inp.metadata = none → parseCreateMemoryRequest inp = .ok req →
      req.metadata = some { source := none, type := some .note, importance := some 1,
                            language := none, framework := none }) ∧
    (∀ req : CreateMemoryRequest, current_user = req.user_id →
      create_memory_item store current_user req =
        (.ok { id := store.freshId
               user_id := req.user_id
               project_id := req.project_id
               text := req.text
               metadata := req.metadata
               tags := req.tags
               similarity := none
               created_at := store.now
               updated_at := store.now },
         store.items ++ [{ id := store.freshId
                           user_id := req.user_id
                           project_id := req.project_id
                           text := req.text
                           embedding := req.embedding
                           metadata := req.metadata
                           tags := req.tags
                           created_at := store.now
                           updated_at := store.now }])) := by
  refine ⟨?_, ?_, ?_, ?_, ?_⟩
  · intro req hne
    unfold create_memory_item
    rw [if_pos hne]
  · intro inp htext
    unfold parseCreateMemoryRequest
    repeat' split
    all_goals exact ⟨_, rfl⟩
  · intro inp hlen
    unfold parseCreateMemoryRequest
    repeat' split
    all_goals try exact ⟨_, rfl⟩
    all_goals omega
  · intro inp req hmeta hok
    unfold parseCreateMemoryRequest at hok
    repeat' split at hok
    all_goals cases hok
    all_goals simp_all
  · intro req heq
    unfold create_memory_item
    rw [if_neg (by simp [heq])]
    rfl

set_option maxRecDepth 8192 in
/-- Witness for C9 at concrete inputs: owner mismatch → 403 with the table
untouched; whitespace-only text and a 1-element embedding → validation
failures; omitting metadata yields the `type = note`, `importance = 1`
default; and the successful create returns the stored record with
`similarity = none`. -/
theorem create_memory_item_spec_witness :
    (create_memory_item storeSimEmpty "u2" createReqGood =
      (.error ⟨403, "Access denied: can only create memories for yourself"⟩,
       [itemA, itemB])) ∧
    (∃ e, parseCreateMemoryRequest { createInpGood with text := "   " } = .error e) ∧
    (∃ e, parseCreateMemoryRequest { createInpGood with embedding := [1] } = .error e) ∧
    createReqGood.metadata = some { source := none, type := some .note, importance := some 1,
                                    language := none, framework := none } ∧
    (create_memory_item storeSimEmpty uuidA createReqGood =
      (.ok { id := "generated-id"
             user_id := uuidA
             project_id := none
             text := "hooks demo"
             metadata := some {}
             tags := ["react", "hooks"]
             similarity := none
             created_at := 0
             updated_at := 0 },
       [itemA, itemB,
        { id := "generated-id"
          user_id := uuidA
          project_id := none
          text := "hooks demo"
          embedding := List.replicate 1536 0
          metadata := some {}
          tags := ["react", "hooks"]
          created_at := 0
          updated_at := 0 }])) :=
  ⟨(create_memory_item_spec storeSimEmpty "u2").1 createReqGood (by decide),
   (create_memory_item_spec storeSimEmpty "u2").2.1 _ (by decide),
   (create_memory_item_spec storeSimEmpty "u2").2.2.1 _ (by decide),
   (create_memory_item_spec storeSimEmpty "u2").2.2.2.1 createInpGood createReqGood rfl rfl,
   (create_memory_item_spec storeSimEmpty uuidA).2.2.2.2 createReqGood rfl⟩

/-- The vector-stage mode test holds for both vector-capable modes. -/
theorem mode_test_true {mode : String} (h : mode = "vector" ∨ mode = "hybrid") :
    (mode == "vector" || mode == "hybrid") = true := by
  rcases h with h | h <;> subst h <;> rfl

/-- Reduction of the list/search handler on the successful non-empty
similarity path: the response is the full similarity result set sliced to the
page window, with `total_count` its full size. -/
theorem get_memory_items_sim_eq (store : Store) (user_id : String)
    (project_id : Option String) (q : String) (page page_size : Nat) (mode : String)
    (th : Int) (emb : List Int) (data : List SimRow)
    (hmode : mode = "vector" ∨ mode = "hybrid")
    (hq : pyStrip q ≠ "")
    (hemb : store.embedFn (pyStrip q) = .ok (some emb))
    (hsim : store.simFn emb th page_size user_id project_id = .ok data)
    (hne : data ≠ []) :
    get_memory_items store user_id user_id project_id (some q) page page_size mode th =
      .ok { items := ((data.drop ((page - 1) * page_size)).take page_size).map
              (fun r => toResponse r.item r.similarity)
            total_count := data.length
            page := page
            page_size := page_size
            has_next := data.length > (page - 1) * page_size + page_size } := by
  cases data with
  | nil => exact absurd rfl hne
  | cons a as =>
    unfold get_memory_items
    rw [if_neg (by simp)]
    simp only [hq, mode_test_true hmode, hemb, hsim, if_true, if_false]

/-- Claim C2: when the embedding call raises, or the embedding succeeds and
the similarity operation raises, a vector or hybrid search request is
downgraded to a text search for that request only: no error reaches the
caller and the result equals that of the equivalent text-mode request with
the same owner, project filter, query, page and page size. -/
theorem search_fallback_equivalence (store : Store) (current_user user_id : String)
    (project_id : Option String) (q : String) (page page_size : Nat) (mode : String)
    (th : Int)
    (hmode : mode = "vector" ∨ mode = "hybrid")
    (hq : pyStrip q ≠ "")
    (hfail : store.embedFn (pyStrip q) = .error () ∨
      ∃ emb, store.embedFn (pyStrip q) = .ok (some emb) ∧
        store.simFn emb th page_size user_id project_id = .error ()) :
    get_memory_items store current_user user_id project_id (some q) page page_size mode th =
      get_memory_items store current_user user_id project_id (some q) page page_size
        "text" th := by
  unfold get_memory_items
  by_cases hcu : current_user ≠ user_id
  · rw [if_pos hcu, if_pos hcu]
  · rw [if_neg hcu, if_neg hcu]
    rcases hfail with hfail | ⟨emb, hemb, hsim⟩
    · simp only [hq, mode_test_true hmode, hfail, if_true, if_false]
      rfl
    · simp only [hq, mode_test_true hmode, hemb, hsim, if_true, if_false]
      rfl

/-- Witness for C2 against the fixtures: a hybrid search whose embedding call
raises, and a vector search whose similarity operation raises, each coincide
with the equivalent text-mode request. -/
theorem search_fallback_equivalence_witness :
    (get_memory_items storeEmbedFail "u1" "u1" none (some "hello") 1 20 "hybrid" 7 =
      get_memory_items storeEmbedFail "u1" "u1" none (some "hello") 1 20 "text" 7) ∧
    (get_memory_items storeSimFail "u1" "u1" none (some "hello") 1 20 "vector" 7 =
      get_memory_items storeSimFail "u1" "u1" none (some "hello") 1 20 "text" 7) :=
  ⟨search_fallback_equivalence storeEmbedFail "u1" "u1" none "hello" 1 20 "hybrid" 7
      (Or.inr rfl) (by decide) (Or.inl rfl),
   search_fallback_equivalence storeSimFail "u1" "u1" none "hello" 1 20 "vector" 7
      (Or.inl rfl) (by decide) (Or.inr ⟨[5], rfl, rfl⟩)⟩

/-- Claim C3 (amended): on a vector or hybrid search whose embedding call and
similarity operation both succeed with a NON-EMPTY similarity result set, the
response items are the full result set sliced to `[offset, offset +
page_size)`, `total_count` is the size of the full result set (no separate
count query), and `has_next = total_count > offset + page_size`.  (When the
similarity result set is empty the handler instead falls through to the
text/plain-scan path; see the counterexample.) -/
theorem similarity_success_response_spec (store : Store) (current_user user_id : String)
    (project_id : Option String) (q : String) (page page_size : Nat) (mode : String)
    (th : Int) (emb : List Int) (data : List SimRow)
    (hauth : current_user = user_id)
    (hmode : mode = "vector" ∨ mode = "hybrid")
    (hq : pyStrip q ≠ "")
    (hemb : store.embedFn (pyStrip q) = .ok (some emb))
    (hsim : store.simFn emb th page_size user_id project_id = .ok data)
    (hne : data ≠ []) :
    get_memory_items store current_user user_id project_id (some q) page page_size mode th =
      .ok { items := ((data.drop ((page - 1) * page_size)).take page_size).map
              (fun r => toResponse r.item r.similarity)
            total_count := data.length
            page := page
            page_size := page_size
            has_next := data.length > (page - 1) * page_size + page_size } := by
  cases hauth
  exact get_memory_items_sim_eq store current_user project_id q page page_size mode th emb
    data hmode hq hemb hsim hne

/-- Witness for C3 (amended) against the two-row similarity fixture. -/
theorem similarity_success_response_spec_witness :
    get_memory_items storeSimTwo "u1" "u1" none (some "hello") 1 2 "hybrid" 7 =
      .ok { items := [toResponse itemA (some 9), toResponse itemB (some 8)]
            total_count := 2
            page := 1
            page_size := 2
            has_next := false } :=
  similarity_success_response_spec storeSimTwo "u1" "u1" none "hello" 1 2 "hybrid" 7 [5]
    [{ item := itemA, similarity := some 9 }, { item := itemB, similarity := some 8 }]
    rfl (Or.inr rfl) (by decide) rfl rfl (by decide)

/-- Counterexample to C3 as stated: with a succeeding embedding call and a
succeeding similarity operation whose result set is EMPTY, the claim demands
an empty item list with `total_count = 0`, but the handler falls through to
the plain scan and returns the owner's stored row with `total_count = 1`. -/
theorem similarity_success_response_counterexample :
    storeSimEmpty.embedFn (pyStrip "q") = .ok (some [5]) ∧
    storeSimEmpty.simFn [5] 7 20 "u1" none = .ok [] ∧
    get_memory_items storeSimEmpty "u1" "u1" none (some "q") 1 20 "vector" 7 =
      .ok { items := [toResponse itemA none]
            total_count := 1
            page := 1
            page_size := 20
            has_next := false } ∧
    get_memory_items storeSimEmpty "u1" "u1" none (some "q") 1 20 "vector" 7 ≠
      .ok { items := []
            total_count := 0
            page := 1
            page_size := 20
            has_next := false } :=
  ⟨rfl, rfl, rfl, by decide⟩

/-- Response shape invariants of the plain scan. -/
theorem scanResponse_shape (store : Store) (user_id : String) (project_id : Option String)
    (textQ : Option String) (page page_size : Nat) :
    (scanResponse store user_id project_id textQ page page_size).page = page ∧
    (scanResponse store user_id project_id textQ page page_size).page_size = page_size ∧
    (scanResponse store user_id project_id textQ page page_size).has_next =
      decide ((scanResponse store user_id project_id textQ page page_size).total_count >
        (page - 1) * page_size + page_size) :=
  ⟨rfl, rfl, rfl⟩

/-- Response shape invariants of the post-vector-stage text path. -/
theorem textPathResponse_shape (store : Store) (user_id : String)
    (project_id : Option String) (search_type sq : String) (page page_size : Nat) :
    (textPathResponse store user_id project_id search_type sq page page_size).page = page ∧
    (textPathResponse store user_id project_id search_type sq page page_size).page_size
      = page_size ∧
    (textPathResponse store user_id project_id search_type sq page page_size).has_next =
      decide ((textPathResponse store user_id project_id search_type sq page
          page_size).total_count > (page - 1) * page_size + page_size) := by
  unfold textPathResponse
  split
  · exact scanResponse_shape store user_id project_id (some sq) page page_size
  · exact scanResponse_shape store user_id project_id none page page_size

/-- Every successful list/search response echoes the requested page and page
size and satisfies the continuation-flag equation. -/
theorem get_memory_items_shape (store : Store) (current_user user_id : String)
    (project_id : Option String) (search : Option String) (page page_size : Nat)
    (mode : String) (th : Int) :
    ∀ r : MemorySearchResponse,
      get_memory_items store current_user user_id project_id search page page_size mode th
        = .ok r →
      r.page = page ∧ r.page_size = page_size ∧
      r.has_next = decide (r.total_count > (page - 1) * page_size + page_size) := by
  intro r
  unfold get_memory_items
  repeat' split
  all_goals intro h
  all_goals try dsimp only at h
  all_goals try (repeat' split at h)
  all_goals first
    | exact absurd h (fun hh => Except.noConfusion hh)
    | exact absurd h.symm (fun hh => Except.noConfusion hh)
    | (cases h; exact scanResponse_shape _ _ _ _ _ _)
    | (cases h; exact textPathResponse_shape _ _ _ _ _ _ _)
    | (cases h; exact ⟨rfl, rfl, rfl⟩)

/-- Claim C5: `page ≥ 1` and `1 ≤ page_size ≤ 100` are enforced as input
validation on the list/search endpoint; the store offset is
`(page - 1) * page_size` and every successful response envelope carries the
requested page and page size together with `total_count` and
`has_next = total_count > (page - 1) * page_size + page_size`. -/
theorem pagination_spec (store : Store) (current_user user_id : String)
    (project_id : Option String) (search : Option String) (page page_size : Int)
    (mode : String) (th : Int) :
    ((page < 1 ∨ page_size < 1 ∨ 100 < page_size) →
      ∃ e, get_memory_items_endpoint store current_user user_id project_id search
          page page_size mode th = .error e ∧ e.status_code = 422) ∧
    (∀ r : MemorySearchResponse,
      get_memory_items_endpoint store current_user user_id project_id search
          page page_size mode th = .ok r →
      1 ≤ page ∧ 1 ≤ page_size ∧ page_size ≤ 100 ∧
      r.page = page.toNat ∧ r.page_size = page_size.toNat ∧
      r.has_next = decide (r.total_count >
        (page.toNat - 1) * page_size.toNat + page_size.toNat)) := by
  constructor
  · intro hbad
    unfold get_memory_items_endpoint
    by_cases h1 : page < 1
    · rw [if_pos h1]; exact ⟨_, rfl, rfl⟩
    · rw [if_neg h1]
      by_cases h2 : page_size < 1
      · rw [if_pos h2]; exact ⟨_, rfl, rfl⟩
      · rw [if_neg h2]
        have h3 : page_size > 100 := by omega
        rw [if_pos h3]
        exact ⟨_, rfl, rfl⟩
  · intro r h
    unfold get_memory_items_endpoint at h
    split at h
    · exact absurd h (by simp)
    · split at h
      · exact absurd h (by simp)
      · split at h
        · exact absurd h (by simp)
        · split at h
          · exact absurd h (by simp)
          · have hs := get_memory_items_shape store current_user user_id project_id search
              page.toNat page_size.toNat mode th r h
            refine ⟨by omega, by omega, by omega, hs.1, hs.2.1, hs.2.2⟩

/-- Witness for C5: `page = 0` is rejected as validation, and a concrete
successful request echoes its pagination data with the continuation-flag
equation. -/
theorem pagination_spec_witness :
    (∃ e, get_memory_items_endpoint storeSimEmpty "u1" "u1" none none 0 20 "hybrid" 7 =
        .error e ∧ e.status_code = 422) ∧
    (1 ≤ (1 : Int) ∧ 1 ≤ (20 : Int) ∧ (20 : Int) ≤ 100 ∧
      scanRespFixture.page = (1 : Int).toNat ∧
      scanRespFixture.page_size = (20 : Int).toNat ∧
      scanRespFixture.has_next = decide (scanRespFixture.total_count >
        ((1 : Int).toNat - 1) * (20 : Int).toNat + (20 : Int).toNat)) :=
  ⟨(pagination_spec storeSimEmpty "u1" "u1" none none 0 20 "hybrid" 7).1
      (Or.inl (by decide)),
   (pagination_spec storeSimEmpty "u1" "u1" none none 1 20 "hybrid" 7).2
      scanRespFixture rfl⟩

/-- Claim C10: on a vector or hybrid search whose embedding call succeeds and
whose similarity operation returns a non-empty result set capped at
`page_size` rows (the `match_count` the handler requests), any page ≥ 2 gets
an empty item list and `has_next = false`, because `total_count ≤ page_size ≤
offset`. -/
theorem vector_cap_later_pages_empty (store : Store) (current_user user_id : String)
    (project_id : Option String) (q : String) (page page_size : Nat) (mode : String)
    (th : Int) (emb : List Int) (data : List SimRow)
    (hauth : current_user = user_id)
    (hmode : mode = "vector" ∨ mode = "hybrid")
    (hq : pyStrip q ≠ "")
    (hemb : store.embedFn (pyStrip q) = .ok (some emb))
    (hsim : store.simFn emb th page_size user_id project_id = .ok data)
    (hne : data ≠ [])
    (hcap : data.length ≤ page_size)
    (hpage : 2 ≤ page) :
    ∃ r, get_memory_items store current_user user_id project_id (some q) page page_size
        mode th = .ok r ∧
      r.items = [] ∧ r.has_next = false ∧ r.total_count ≤ page_size := by
  cases hauth
  refine ⟨_, get_memory_items_sim_eq store current_user project_id q page page_size mode th
    emb data hmode hq hemb hsim hne, ?_, ?_, ?_⟩
  · show ((data.drop ((page - 1) * page_size)).take page_size).map
      (fun r => toResponse r.item r.similarity) = []
    have hoff : data.length ≤ (page - 1) * page_size := by
      have h1 : 1 ≤ page - 1 := by omega
      calc data.length ≤ page_size := hcap
        _ = 1 * page_size := (Nat.one_mul _).symm
        _ ≤ (page - 1) * page_size := Nat.mul_le_mul_right _ h1
    rw [List.drop_eq_nil_of_le hoff]
    simp
  · show decide (data.length > (page - 1) * page_size + page_size) = false
    have h1 : 1 ≤ page - 1 := by omega
    have : (page - 1) * page_size + page_size ≥ page_size := by omega
    simp only [decide_eq_false_iff_not, gt_iff_lt, not_lt]
    calc data.length ≤ page_size := hcap
      _ ≤ (page - 1) * page_size + page_size := by omega
  · show data.length ≤ page_size
    exact hcap

/-- Witness for C10: the two-row similarity fixture at `page = 2`,
`page_size = 2` yields an empty page with `has_next = false`. -/
theorem vector_cap_later_pages_empty_witness :
    ∃ r, get_memory_items storeSimTwo "u1" "u1" none (some "hello") 2 2 "vector" 7 =
        .ok r ∧ r.items = [] ∧ r.has_next = false ∧ r.total_count ≤ 2 :=
  vector_cap_later_pages_empty storeSimTwo "u1" "u1" none "hello" 2 2 "vector" 7 [5]
    [{ item := itemA, similarity := some 9 }, { item := itemB, similarity := some 8 }]
    rfl (Or.inl rfl) (by decide) rfl rfl (by decide) (by decide) (by decide)

end MemoryApi
